import Mathlib

/-!
Shallow embedding of the `rustler_logger` crate (src/level.rs, src/message.rs,
src/panic.rs) together with theorems settling the spec claims.

Modelling conventions:
* Rust `panic!` sites become `Except LogError _` results; each `LogError`
  constructor corresponds to one panic site / spec error name.
* The `rustler::Encoder` trait objects stored in a message are modelled by the
  opaque value type `EncVal`; encoding into a BEAM term is an abstract function
  supplied by the send environment `SendEnv`.
* BEAM terms are modelled by the inductive `Term`; the env-dependent effects of
  `Log::send` (`ENV.with`, `Term::map_from_pairs`, `whereis_pid`, `is_alive`,
  `env.send`) are fields of `SendEnv`, and the list of transmissions handed to
  `env.send` is returned explicitly.
* Thread-local slots (`PANIC_INFO`) are passed as explicit state.
-/

namespace RustlerLogger

/-- Models `enum LogLevel` of src/level.rs (declaration order as in the source). -/
inductive LogLevel where
  | Debug
  | Info
  | Notice
  | Warning
  | Error
  | Critical
  | Alert
  | Emergency
deriving DecidableEq, Fintype, Repr

/-- The discriminant the Rust compiler assigns to each variant of `LogLevel`
(declaration order); `derive(PartialOrd, Ord)` orders variants by it. -/
def LogLevel.discriminant : LogLevel → Nat
  | .Debug => 0
  | .Info => 1
  | .Notice => 2
  | .Warning => 3
  | .Error => 4
  | .Critical => 5
  | .Alert => 6
  | .Emergency => 7

instance : LT LogLevel := ⟨fun a b => a.discriminant < b.discriminant⟩

instance (a b : LogLevel) : Decidable (a < b) :=
  inferInstanceAs (Decidable (a.discriminant < b.discriminant))

/-- Models `impl From<&str> for LogLevel` (src/level.rs): a case-sensitive
lookup with a catch-all defaulting to `Debug`. -/
def LogLevel.fromStr (s : String) : LogLevel :=
  if s = "trace" then .Debug
  else if s = "debug" then .Debug
  else if s = "info" then .Info
  else if s = "notice" then .Notice
  else if s = "warn" then .Warning
  else if s = "warning" then .Warning
  else if s = "error" then .Error
  else if s = "critical" then .Critical
  else if s = "alert" then .Alert
  else if s = "emergency" then .Emergency
  else if s = "fatal" then .Emergency
  else .Debug

/-- Models `impl From<LogLevel> for &str` (src/level.rs). -/
def LogLevel.toStr : LogLevel → String
  | .Debug => "debug"
  | .Info => "info"
  | .Notice => "notice"
  | .Warning => "warning"
  | .Error => "error"
  | .Critical => "critical"
  | .Alert => "alert"
  | .Emergency => "emergency"

/-- An opaque encodable value (a `Rc<dyn Encoder>` in the source). The source
only ever stores strings in `src/panic.rs`; other encoders are abstracted by
the `nat` constructor. -/
inductive EncVal where
  | str : String → EncVal
  | nat : Nat → EncVal
deriving DecidableEq, Repr

/-- A BEAM term, as far as the wire tuple built by `Log::send` needs. -/
inductive Term where
  | atom : String → Term
  | str : String → Term
  | list : List Term → Term
  | map : List (Term × Term) → Term
  | tuple : List Term → Term

/-- Models `LogLevel::as_atom` (src/level.rs): the pre-interned atom for each
level, from the `atoms!` block of src/atoms.rs. -/
def LogLevel.as_atom : LogLevel → Term
  | .Debug => .atom "debug"
  | .Info => .atom "info"
  | .Notice => .atom "notice"
  | .Warning => .atom "warning"
  | .Error => .atom "error"
  | .Critical => .atom "critical"
  | .Alert => .atom "alert"
  | .Emergency => .atom "emergency"

/-- The fatal errors of the crate, one per `panic!` site of src/message.rs. -/
inductive LogError where
  /-- panic "attempt to send/cancel a log message that has already been used" -/
  | useAfterConsumption
  /-- `ENV.with` with no scoped thread-local context installed -/
  | noActiveContext
  /-- panic "Failed to create metadata map" -/
  | metadataMapFailed
  /-- panic "BEAM logger proxy process is not registered?!" -/
  | proxyNotRegistered
  /-- panic "BEAM logger proxy process is not alive?!" -/
  | proxyNotAlive
  /-- panic "failed to ship log message to Elixir" -/
  | deliveryFailed
  /-- panic "log message generated but not cancelled or sent" (Drop impl) -/
  | unconsumedOnDestruction
deriving DecidableEq, Repr

/-- Models `struct Log` of src/message.rs. -/
structure Log where
  level : LogLevel
  format : String
  args : List EncVal
  metadata : List (String × EncVal)
  pending : Bool
deriving DecidableEq, Repr

/-- Models `Log::new` (src/message.rs). -/
def Log.new (level : LogLevel) (format : String) : Log :=
  { level := level, format := format, args := [], metadata := [], pending := true }

/-- Models `Log::arg` (src/message.rs): unconditionally pushes onto `args`. -/
def Log.arg (l : Log) (a : EncVal) : Log :=
  { l with args := l.args ++ [a] }

/-- Models `Log::opt_arg` (src/message.rs): pushes only when present. -/
def Log.opt_arg (l : Log) (a : Option EncVal) : Log :=
  match a with
  | some a => { l with args := l.args ++ [a] }
  | none => l

/-- Models `Log::opt_arg_else` (src/message.rs): pushes the value when present,
the fallback otherwise. -/
def Log.opt_arg_else (l : Log) (some_arg : Option EncVal) (none_arg : EncVal) : Log :=
  match some_arg with
  | some a => { l with args := l.args ++ [a] }
  | none => { l with args := l.args ++ [none_arg] }

/-- Models `Log::meta` (src/message.rs): unconditionally pushes onto `metadata`. -/
def Log.meta (l : Log) (key : String) (value : EncVal) : Log :=
  { l with metadata := l.metadata ++ [(key, value)] }

/-- Models `Log::opt_meta` (src/message.rs): pushes only when present. -/
def Log.opt_meta (l : Log) (key : String) (value : Option EncVal) : Log :=
  match value with
  | some v => { l with metadata := l.metadata ++ [(key, v)] }
  | none => l

/-- The environment-dependent operations used by `Log::send`
(src/message.rs): the scoped thread-local `ENV`, value encoding,
`Term::map_from_pairs`, `whereis_pid(logger_proxy)`, `is_alive`, and whether
the final `env.send` is accepted. Pids are abstracted by `Nat`. -/
structure SendEnv where
  hasCtx : Bool
  encode : EncVal → Term
  mapFromPairs : List (Term × Term) → Option Term
  whereis : Option Nat
  isAlive : Nat → Bool
  transmitOk : Bool

/-- Models `Log::send` (src/message.rs, non-test version). On success it
returns the consumed message together with the list of payloads passed to
`env.send` (exactly the one wire tuple). The checks appear in source order:
pending, context, metadata map, registration, liveness, transmission. -/
def Log.send (l : Log) (env : SendEnv) : Except LogError (Log × List Term) :=
  if l.pending = false then
    .error .useAfterConsumption
  else if env.hasCtx = false then
    .error .noActiveContext
  else
    let args := l.args.map env.encode
    let metadata_pairs := l.metadata.map (fun p => (Term.atom p.1, env.encode p.2))
    match env.mapFromPairs metadata_pairs with
    | none => .error .metadataMapFailed
    | some metadata =>
      match env.whereis with
      | none => .error .proxyNotRegistered
      | some pid =>
        if env.isAlive pid = false then
          .error .proxyNotAlive
        else
          let log_msg := Term.tuple
            [Term.atom "log", l.level.as_atom, Term.str l.format, Term.list args, metadata]
          if env.transmitOk then .ok ({ l with pending := false }, [log_msg])
          else .error .deliveryFailed

/-- Models `Log::cancel` (src/message.rs); the returned message is the state
the value is dropped in afterwards. -/
def Log.cancel (l : Log) : Except LogError Log :=
  if l.pending then .ok { l with pending := false }
  else .error .useAfterConsumption

/-- Models `impl Drop for Log` (src/message.rs). -/
def Log.drop (l : Log) : Except LogError Unit :=
  if l.pending then .error .unconsumedOnDestruction
  else .ok ()

/-- Models `struct PanicInfo` of src/panic.rs (the per-thread panic record). -/
structure PanicInfo where
  message : String
  file : Option String
  line : Option Nat
  col : Option Nat
deriving DecidableEq, Repr

/-- The source location carried by a `PanicHookInfo` (`std::panic::Location`). -/
structure SourceLocation where
  file : String
  line : Nat
  col : Nat
deriving DecidableEq, Repr

/-- The payload of a Rust panic as far as `any_to_string` can inspect it:
a `&'static str`, an owned `String`, or anything else. -/
inductive PanicPayload where
  | staticStr : String → PanicPayload
  | ownedString : String → PanicPayload
  | other : PanicPayload
deriving DecidableEq, Repr

/-- Models `std::panic::PanicHookInfo` as used by src/panic.rs: a payload and
an optional source location. -/
structure PanicHookInfo where
  payload : PanicPayload
  location : Option SourceLocation
deriving DecidableEq, Repr

/-- Models `any_to_string` (src/panic.rs). -/
def any_to_string : PanicPayload → String
  | .staticStr s => s
  | .ownedString s => s
  | .other => "Box<dyn Any>"

/-- Models `panic_hook` (src/panic.rs). The thread-local slot `PANIC_INFO` is
passed as explicit state; the hook overwrites it unconditionally with the
record built from the hook info. -/
def panic_hook (info : PanicHookInfo) (slot : Option PanicInfo) : Option PanicInfo :=
  let _ := slot
  some { message := any_to_string info.payload
         file := info.location.map SourceLocation.file
         line := info.location.map SourceLocation.line
         col := info.location.map SourceLocation.col }

/-- Models `send_panic_message` (src/panic.rs) up to the final `.send()` call:
`PANIC_INFO.replace(None)` drains the slot, the defaults `"<unknown>"`, `"?"`,
`"?"` fill missing location data, and the critical message is built by the
same builder chain as the source. Returns the built message (the value the
source then passes to `Log::send`) and the new slot contents. -/
def send_panic_message (slot : Option PanicInfo) (fname : String) (arity : Nat) :
    Log × Option PanicInfo :=
  let panic_info := slot
  let file := match panic_info with
    | some ⟨_, some file, _, _⟩ => file
    | _ => "<unknown>"
  let line := match panic_info with
    | some ⟨_, _, some line, _⟩ => toString line
    | _ => "?"
  let col := match panic_info with
    | some ⟨_, _, _, some col⟩ => toString col
    | _ => "?"
  let msg :=
    ((((((((Log.new .Critical "rustler_nif_panic[~s/~s@~s:~s:~s]: ~s").arg
      (.str fname)).arg
      (.str (toString arity))).arg
      (.str file)).arg
      (.str line)).arg
      (.str col)).opt_arg_else
      (panic_info.map (fun p => EncVal.str p.message))
      (.str "unable to find panic information")).meta
      "file" (.str file)).meta
      "line" (.str line) |>.meta
      "column" (.str col)
  (msg, none)

/-! ## Theorems -/

/-- C5: For every severity `L` in the canonical eight-member set, parsing the
display string of `L` yields `L` again: `parse (to_display L) = L`. -/
theorem parse_display_roundtrip (l : LogLevel) : LogLevel.fromStr (LogLevel.toStr l) = l := by
  cases l <;> rfl

/-- C6: Severity parsing is total (`LogLevel.fromStr` returns a severity for
every string); the synonyms map as trace→Debug, warn→Warning, fatal→Emergency;
and every string outside the eleven-entry lookup table — for example
"unknown-xyz" — yields `Debug`. -/
theorem parse_total_default (s : String)
    (h : s ∉ (["trace", "debug", "info", "notice", "warn", "warning", "error",
               "critical", "alert", "emergency", "fatal"] : List String)) :
    LogLevel.fromStr "trace" = LogLevel.Debug ∧
    LogLevel.fromStr "warn" = LogLevel.Warning ∧
    LogLevel.fromStr "fatal" = LogLevel.Emergency ∧
    LogLevel.fromStr "unknown-xyz" = LogLevel.Debug ∧
    LogLevel.fromStr s = LogLevel.Debug := by
  simp only [List.mem_cons, List.mem_singleton, not_or] at h
  obtain ⟨h1, h2, h3, h4, h5, h6, h7, h8, h9, h10, h11, -⟩ := h
  refine ⟨rfl, rfl, rfl, rfl, ?_⟩
  simp [LogLevel.fromStr, h1, h2, h3, h4, h5, h6, h7, h8, h9, h10, h11]

/-- Witness for `parse_total_default` at the concrete input "unknown-xyz". -/
theorem parse_total_default_witness :
    LogLevel.fromStr "unknown-xyz" = LogLevel.Debug :=
  (parse_total_default "unknown-xyz" (by decide)).2.2.2.2

/-- C9: The severity order is exactly the declared sequence
Debug < Info < Notice < Warning < Error < Critical < Alert < Emergency,
and it is a strict total order (irreflexive, transitive, trichotomous) with
Debug lowest and Emergency highest. -/
theorem level_order_strict_total :
    (LogLevel.Debug < LogLevel.Info ∧ LogLevel.Info < LogLevel.Notice ∧
     LogLevel.Notice < LogLevel.Warning ∧ LogLevel.Warning < LogLevel.Error ∧
     LogLevel.Error < LogLevel.Critical ∧ LogLevel.Critical < LogLevel.Alert ∧
     LogLevel.Alert < LogLevel.Emergency) ∧
    (∀ a : LogLevel, ¬ a < a) ∧
    (∀ a b c : LogLevel, a < b → b < c → a < c) ∧
    (∀ a b : LogLevel, a < b ∨ a = b ∨ b < a) ∧
    (∀ a : LogLevel, a = LogLevel.Debug ∨ LogLevel.Debug < a) ∧
    (∀ a : LogLevel, a = LogLevel.Emergency ∨ a < LogLevel.Emergency) := by
  decide

/-- Witness for `level_order_strict_total`: the transitivity component applied
at the concrete levels Debug, Critical, Emergency. -/
theorem level_order_strict_total_witness :
    LogLevel.Debug < LogLevel.Emergency :=
  level_order_strict_total.2.2.1 LogLevel.Debug LogLevel.Critical LogLevel.Emergency
    (by decide) (by decide)

/-- C8: For every message in the Building state, `opt_arg none` leaves the
argument sequence unchanged, `opt_arg (some v)` appends exactly `v` at the
end, `opt_arg_else none fallback` appends exactly `fallback`, and
`opt_arg_else` always produces the positional slot (length grows by one for
either input) while `opt_arg none` produces none. -/
theorem opt_arg_semantics (l : Log) (v fallback : EncVal) (o : Option EncVal)
    (_h : l.pending = true) :
    (l.opt_arg none).args = l.args ∧
    (l.opt_arg (some v)).args = l.args ++ [v] ∧
    (l.opt_arg_else none fallback).args = l.args ++ [fallback] ∧
    (l.opt_arg_else o fallback).args.length = l.args.length + 1 ∧
    (l.opt_arg none).args.length = l.args.length := by
  cases o <;> simp [Log.opt_arg, Log.opt_arg_else]

/-- Witness for `opt_arg_semantics` at a concrete freshly-built message. -/
theorem opt_arg_semantics_witness :
    ((Log.new LogLevel.Info "f").opt_arg none).args = [] ∧
    ((Log.new LogLevel.Info "f").opt_arg_else none (EncVal.str "d")).args = [EncVal.str "d"] :=
  let h := opt_arg_semantics (Log.new LogLevel.Info "f") (EncVal.str "v") (EncVal.str "d")
    (some (EncVal.str "v")) rfl
  ⟨h.1, h.2.2.1⟩

/-- C10 (frame conditions): every builder operation (`arg`, `opt_arg`,
`opt_arg_else`, `meta`, `opt_meta`) preserves the message's level, format and
pending flag; the argument-appending operations preserve the metadata sequence
and the metadata operations preserve the argument sequence; and each call
appends at most one element, always at the end of its own sequence. -/
theorem builder_frame_effects (l : Log) (v : EncVal) (o : Option EncVal) (k : String) :
    ((l.arg v).level = l.level ∧ (l.arg v).format = l.format ∧
     (l.arg v).pending = l.pending ∧ (l.arg v).metadata = l.metadata ∧
     (l.arg v).args = l.args ++ [v]) ∧
    ((l.opt_arg o).level = l.level ∧ (l.opt_arg o).format = l.format ∧
     (l.opt_arg o).pending = l.pending ∧ (l.opt_arg o).metadata = l.metadata ∧
     (l.opt_arg o).args = l.args ++ (match o with | some a => [a] | none => [])) ∧
    ((l.opt_arg_else o v).level = l.level ∧ (l.opt_arg_else o v).format = l.format ∧
     (l.opt_arg_else o v).pending = l.pending ∧ (l.opt_arg_else o v).metadata = l.metadata ∧
     (l.opt_arg_else o v).args = l.args ++ [match o with | some a => a | none => v]) ∧
    ((l.meta k v).level = l.level ∧ (l.meta k v).format = l.format ∧
     (l.meta k v).pending = l.pending ∧ (l.meta k v).args = l.args ∧
     (l.meta k v).metadata = l.metadata ++ [(k, v)]) ∧
    ((l.opt_meta k o).level = l.level ∧ (l.opt_meta k o).format = l.format ∧
     (l.opt_meta k o).pending = l.pending ∧ (l.opt_meta k o).args = l.args ∧
     (l.opt_meta k o).metadata = l.metadata ++ (match o with | some a => [(k, a)] | none => [])) := by
  cases o <;> simp [Log.arg, Log.opt_arg, Log.opt_arg_else, Log.meta, Log.opt_meta]

/-- A fully cooperative send environment: context installed, string/number
encoding, map construction always succeeds, the proxy pid 0 is registered and
alive, and transmission is accepted. Used to instantiate theorems at concrete
inputs. -/
def env0 : SendEnv :=
  { hasCtx := true
    encode := fun v => match v with
      | .str s => Term.str s
      | .nat n => Term.str (toString n)
    mapFromPairs := fun ps => some (Term.map ps)
    whereis := some 0
    isAlive := fun _ => true
    transmitOk := true }

/-- Helper: complete characterisation of a successful `Log.send`. -/
theorem send_ok_iff (l : Log) (env : SendEnv) (l2 : Log) (out : List Term) :
    l.send env = Except.ok (l2, out) ↔
      l.pending = true ∧ env.hasCtx = true ∧
      ∃ m pid,
        env.mapFromPairs (l.metadata.map fun p => (Term.atom p.1, env.encode p.2)) = some m ∧
        env.whereis = some pid ∧ env.isAlive pid = true ∧ env.transmitOk = true ∧
        l2 = { l with pending := false } ∧
        out = [Term.tuple [Term.atom "log", l.level.as_atom, Term.str l.format,
               Term.list (l.args.map env.encode), m]] := by
  unfold Log.send
  cases hp : l.pending <;> simp [hp]
  cases hc : env.hasCtx <;> simp [hc]
  cases hm : env.mapFromPairs (l.metadata.map fun p => (Term.atom p.1, env.encode p.2)) <;>
    simp [hm]
  cases hw : env.whereis with
  | none => simp
  | some pid =>
    cases ha : env.isAlive pid <;> simp [ha]
    cases ht : env.transmitOk <;> simp [ht]
    constructor
    · intro h
      exact ⟨h.1.symm, h.2.symm⟩
    · intro h
      exact ⟨h.1.symm, h.2.symm⟩

/-- Helper: a `Log.send` on a still-pending message never fails with the
use-after-consumption error. -/
theorem send_pending_not_uac (l : Log) (env : SendEnv) (hp : l.pending = true) (e : LogError) :
    l.send env = Except.error e → e ≠ LogError.useAfterConsumption := by
  unfold Log.send
  simp only [hp]
  cases hc : env.hasCtx <;> simp [hc]
  · intro h
    cases h
    simp
  · cases hm : env.mapFromPairs (l.metadata.map fun p => (Term.atom p.1, env.encode p.2)) <;>
      simp [hm]
    · intro h
      cases h
      simp
    · cases hw : env.whereis with
      | none =>
        simp
        intro h
        cases h
        simp
      | some pid =>
        simp only []
        cases ha : env.isAlive pid <;> simp [ha]
        · intro h
          cases h
          simp
        · cases ht : env.transmitOk <;> simp [ht]
          intro h
          cases h
          simp

/-- C1: dropping a `Log` while it is neither delivered nor cancelled
(`pending` still true, i.e. still Building) is the fatal
`unconsumedOnDestruction` panic, while a message that has been consumed —
directly, or as the result of a successful `cancel` or `send` — drops without
any error. -/
theorem drop_requires_consumption (l : Log) (env : SendEnv) :
    (l.pending = true → l.drop = Except.error LogError.unconsumedOnDestruction) ∧
    (l.pending = false → l.drop = Except.ok ()) ∧
    (∀ l2, l.cancel = Except.ok l2 → l2.drop = Except.ok ()) ∧
    (∀ l2 out, l.send env = Except.ok (l2, out) → l2.drop = Except.ok ()) := by
  refine ⟨fun h => by simp [Log.drop, h], fun h => by simp [Log.drop, h], ?_, ?_⟩
  · intro l2 h
    unfold Log.cancel at h
    split at h
    · cases h; simp [Log.drop]
    · cases h
  · intro l2 out h
    obtain ⟨-, -, m, pid, -, -, -, -, hl2, -⟩ := (send_ok_iff l env l2 out).mp h
    simp [hl2, Log.drop]

/-- Witness for `drop_requires_consumption`: a freshly built message errors on
drop; after cancelling it, drop succeeds. -/
theorem drop_requires_consumption_witness :
    (Log.new LogLevel.Info "f").drop = Except.error LogError.unconsumedOnDestruction ∧
    { Log.new LogLevel.Info "f" with pending := false }.drop = Except.ok () :=
  let h := drop_requires_consumption (Log.new LogLevel.Info "f") env0
  ⟨h.1 rfl, h.2.2.1 { Log.new LogLevel.Info "f" with pending := false } rfl⟩

/-- C2 counterexample: the claim says `arg` and `meta` fail fatally with
`UseAfterConsumption` on an already-consumed message, but the source bodies of
`Log::arg` and `Log::meta` contain no consumption check at all: on the
concrete consumed message below (`pending = false`, as produced by a completed
`cancel` or `send`) both return normally and append. -/
theorem arg_meta_after_consumption_succeed :
    Log.arg { level := LogLevel.Info, format := "f", args := [], metadata := [],
              pending := false } (EncVal.str "x")
      = { level := LogLevel.Info, format := "f", args := [EncVal.str "x"], metadata := [],
          pending := false } ∧
    Log.meta { level := LogLevel.Info, format := "f", args := [], metadata := [],
               pending := false } "k" (EncVal.str "x")
      = { level := LogLevel.Info, format := "f", args := [],
          metadata := [("k", EncVal.str "x")], pending := false } :=
  ⟨rfl, rfl⟩

/-- C2 as amended: only `send` and `cancel` carry the use-after-consumption
check. On an already-consumed message (`pending = false`) both fail fatally
with `useAfterConsumption`; on a Building message neither can fail with that
error — `cancel` succeeds and consumes, and a successful `send` consumes —
while `arg` and `meta` perform no consumption check in any state and always
append (their use on a consumed value is prevented by Rust move semantics,
not by a runtime check). -/
theorem consumption_check_send_cancel_only (l : Log) (env : SendEnv) (v : EncVal) (k : String) :
    (l.pending = false → l.send env = Except.error LogError.useAfterConsumption ∧
                         l.cancel = Except.error LogError.useAfterConsumption) ∧
    (l.pending = true → l.cancel = Except.ok { l with pending := false } ∧
        (∀ e, l.send env = Except.error e → e ≠ LogError.useAfterConsumption) ∧
        (∀ l2 out, l.send env = Except.ok (l2, out) → l2.pending = false)) ∧
    ((l.arg v).args = l.args ++ [v] ∧ (l.arg v).pending = l.pending) ∧
    ((l.meta k v).metadata = l.metadata ++ [(k, v)] ∧ (l.meta k v).pending = l.pending) := by
  refine ⟨fun h => ⟨by simp [Log.send, h], by simp [Log.cancel, h]⟩,
          fun h => ⟨by simp [Log.cancel, h], fun e he => send_pending_not_uac l env h e he, ?_⟩,
          by simp [Log.arg], by simp [Log.meta]⟩
  intro l2 out he
  obtain ⟨-, -, m, pid, -, -, -, -, hl2, -⟩ := (send_ok_iff l env l2 out).mp he
  simp [hl2]

/-- Witness for `consumption_check_send_cancel_only`: at a consumed concrete
message, `send` and `cancel` both fail with `useAfterConsumption`; at a fresh
one, `cancel` consumes. -/
theorem consumption_check_send_cancel_only_witness :
    ({ level := LogLevel.Info, format := "f", args := [], metadata := [],
       pending := false } : Log).send env0 = Except.error LogError.useAfterConsumption ∧
    (Log.new LogLevel.Info "f").cancel
      = Except.ok { Log.new LogLevel.Info "f" with pending := false } :=
  ⟨(consumption_check_send_cancel_only
      { level := LogLevel.Info, format := "f", args := [], metadata := [], pending := false }
      env0 (EncVal.str "x") "k").1 rfl |>.1,
   ((consumption_check_send_cancel_only (Log.new LogLevel.Info "f")
      env0 (EncVal.str "x") "k").2.1 rfl).1⟩

/-- C7: a successful `send` performs exactly one outbound transmission, whose
payload is the ordered 5-tuple (fixed tag "log", the level's atom, the format
string, the encoded positional arguments in insertion order, the metadata
map), with the tuple positions fixed in exactly that order. -/
theorem send_success_payload (l : Log) (env : SendEnv) (l2 : Log) (out : List Term)
    (h : l.send env = Except.ok (l2, out)) :
    out.length = 1 ∧
    ∃ m, env.mapFromPairs (l.metadata.map fun p => (Term.atom p.1, env.encode p.2)) = some m ∧
      out = [Term.tuple [Term.atom "log", l.level.as_atom, Term.str l.format,
             Term.list (l.args.map env.encode), m]] := by
  obtain ⟨-, -, m, pid, hm, -, -, -, -, hout⟩ := (send_ok_iff l env l2 out).mp h
  exact ⟨by simp [hout], m, hm, hout⟩

/-- A concrete pending message used to instantiate `send_success_payload`. -/
def l0 : Log :=
  { level := LogLevel.Info, format := "fmt", args := [EncVal.str "a"],
    metadata := [("k", EncVal.str "v")], pending := true }

/-- The single wire tuple `send` produces for `l0` under `env0`. -/
def out0 : List Term :=
  [Term.tuple [Term.atom "log", Term.atom "info", Term.str "fmt",
    Term.list [Term.str "a"], Term.map [(Term.atom "k", Term.str "v")]]]

/-- Witness for `send_success_payload` at the concrete message `l0` and the
cooperative environment `env0`. -/
theorem send_success_payload_witness :
    out0.length = 1 ∧
    ∃ m, env0.mapFromPairs (l0.metadata.map fun p => (Term.atom p.1, env0.encode p.2)) = some m ∧
      out0 = [Term.tuple [Term.atom "log", l0.level.as_atom, Term.str l0.format,
              Term.list (l0.args.map env0.encode), m]] :=
  send_success_payload l0 env0 { l0 with pending := false } out0 rfl

/-- C3: for every operation name and arity, `send_panic_message` builds one
Critical-severity message with the fixed panic template, six positional
arguments whose final one is the captured fault text, and metadata that
duplicates the file/line/column argument slots under the keys
file/line/column; with no panic record the fault text is the placeholder
"unable to find panic information" and the three location fields are
"<unknown>", "?", "?"; with a fully-located record they are the record's
file, line and column. -/
theorem relay_message_shape (fname : String) (arity : Nat) (slot : Option PanicInfo) :
    (send_panic_message slot fname arity).1.level = LogLevel.Critical ∧
    (send_panic_message slot fname arity).1.format = "rustler_nif_panic[~s/~s@~s:~s:~s]: ~s" ∧
    (send_panic_message slot fname arity).1.args.length = 6 ∧
    (send_panic_message slot fname arity).1.metadata.map Prod.fst = ["file", "line", "column"] ∧
    (send_panic_message slot fname arity).1.metadata.map Prod.snd
      = ((send_panic_message slot fname arity).1.args.drop 2).take 3 ∧
    (send_panic_message slot fname arity).1.args.getLast?
      = some (match slot with
              | some p => EncVal.str p.message
              | none => EncVal.str "unable to find panic information") ∧
    (slot = none →
      ((send_panic_message slot fname arity).1.args.drop 2).take 3
        = [EncVal.str "<unknown>", EncVal.str "?", EncVal.str "?"]) ∧
    (∀ p f li c, slot = some p → p.file = some f → p.line = some li → p.col = some c →
      ((send_panic_message slot fname arity).1.args.drop 2).take 3
        = [EncVal.str f, EncVal.str (toString li), EncVal.str (toString c)]) := by
  obtain - | ⟨m, f, li, c⟩ := slot
  · simp [send_panic_message, Log.new, Log.arg, Log.opt_arg_else, Log.meta]
  · obtain - | f := f <;> obtain - | li := li <;> obtain - | c := c <;>
      simp_all [send_panic_message, Log.new, Log.arg, Log.opt_arg_else, Log.meta] <;>
      (rintro p f2 li2 c2 rfl hf hl hc; simp_all)

/-- Witness for `relay_message_shape` at a concrete captured panic record. -/
theorem relay_message_shape_witness :
    (send_panic_message (some ⟨"boom", some "a.rs", some 3, some 7⟩) "hello" 0).1.level
      = LogLevel.Critical ∧
    ((send_panic_message (some ⟨"boom", some "a.rs", some 3, some 7⟩) "hello" 0).1.args.drop
        2).take 3
      = [EncVal.str "a.rs", EncVal.str (toString 3), EncVal.str (toString 7)] ∧
    (send_panic_message (none : Option PanicInfo) "hello" 0).1.args.getLast?
      = some (EncVal.str "unable to find panic information") :=
  ⟨(relay_message_shape "hello" 0 (some ⟨"boom", some "a.rs", some 3, some 7⟩)).1,
   (relay_message_shape "hello" 0 (some ⟨"boom", some "a.rs", some 3, some 7⟩)).2.2.2.2.2.2.2
     ⟨"boom", some "a.rs", some 3, some 7⟩ "a.rs" 3 7 rfl rfl rfl rfl,
   (relay_message_shape "hello" 0 none).2.2.2.2.2.1⟩

/-- C4: the per-thread panic slot holds at most one record — `panic_hook`
overwrites it with the newest record whatever was there before (its result is
independent of the prior contents), and the single read performed by
`send_panic_message` drains the slot to `none`, so a second read without an
intervening fault finds no record and falls back to the placeholder text. -/
theorem panic_slot_overwrite_drain (info : PanicHookInfo) (slot slot2 : Option PanicInfo)
    (fname : String) (arity : Nat) :
    panic_hook info slot = panic_hook info slot2 ∧
    panic_hook info slot = some { message := any_to_string info.payload,
                                  file := info.location.map SourceLocation.file,
                                  line := info.location.map SourceLocation.line,
                                  col := info.location.map SourceLocation.col } ∧
    (send_panic_message slot fname arity).2 = none ∧
    (send_panic_message ((send_panic_message slot fname arity).2) fname arity).2 = none ∧
    (send_panic_message ((send_panic_message slot fname arity).2) fname arity).1.args.getLast?
      = some (EncVal.str "unable to find panic information") := by
  refine ⟨rfl, rfl, rfl, rfl, ?_⟩
  simp [send_panic_message, Log.new, Log.arg, Log.opt_arg_else, Log.meta]

end RustlerLogger
